import Mathlib

/-!
# Verification of the Swarm Gemini adapter and weather example

Shallow embedding of `src/swarm/clients/gemini_client.py` and
`src/examples/weather_agent_gemini/agents.py`, together with proofs of the
testable properties stated in the repository specification.

External dependencies of the code (the vertexai SDK call, `uuid.uuid4()`,
`os.getenv`, `requests.get`) are modelled as explicit parameters; the Python
standard-library JSON encoder/decoder pair is modelled by a concrete
executable serializer `json_dumps` (insertion-ordered objects, Python's
default separators `", "` and `": "`, escaping of `"` and `\`) and a matching
decoder `parse_strobj` for string-valued objects, the only object shape the
verified paths serialize.
-/

namespace SwarmGemini

/-- A JSON value, the domain of Python's `json.dumps` as used by the adapter
(the adapter and the weather agent only ever serialize strings, numbers,
booleans, null, arrays and objects). Numbers are modelled as integers; no
verified path serializes a float. -/
inductive JsonValue where
  | str : String → JsonValue
  | int : Int → JsonValue
  | bool : Bool → JsonValue
  | null : JsonValue
  | arr : List JsonValue → JsonValue
  | obj : List (String × JsonValue) → JsonValue

/-- Escaping of a JSON string body: `"` and `\` are backslash-escaped, every
other character is emitted verbatim (model of Python `json.dumps` escaping). -/
def escape_chars : List Char → List Char
  | [] => []
  | c :: rest =>
    if c = '"' then '\\' :: '"' :: escape_chars rest
    else if c = '\\' then '\\' :: '\\' :: escape_chars rest
    else c :: escape_chars rest

/-- A serialized JSON string literal: opening quote, escaped body, closing quote. -/
def dump_string (s : String) : List Char :=
  '"' :: (escape_chars s.data ++ ['"'])

mutual

/-- Serialization of a JSON value to characters (model of Python
`json.dumps` with its default separators `", "` and `": "`). -/
def json_dumps_chars : JsonValue → List Char
  | .str s => dump_string s
  | .int n => (toString n).data
  | .bool b => if b then "true".data else "false".data
  | .null => "null".data
  | .arr xs => '[' :: (json_dumps_items xs ++ [']'])
  | .obj kvs => '{' :: (json_dumps_entries kvs ++ ['}'])

/-- Array items joined by `", "`. -/
def json_dumps_items : List JsonValue → List Char
  | [] => []
  | [x] => json_dumps_chars x
  | x :: y :: rest => json_dumps_chars x ++ ',' :: ' ' :: json_dumps_items (y :: rest)

/-- Object entries `"key": value` joined by `", "`. -/
def json_dumps_entries : List (String × JsonValue) → List Char
  | [] => []
  | [(k, v)] => dump_string k ++ ':' :: ' ' :: json_dumps_chars v
  | (k, v) :: e :: rest =>
      dump_string k ++ ':' :: ' ' :: json_dumps_chars v ++ ',' :: ' ' :: json_dumps_entries (e :: rest)

end

/-- Model of Python `json.dumps`. -/
def json_dumps (v : JsonValue) : String :=
  String.mk (json_dumps_chars v)

/-- Lift a string-to-string mapping (a Python `dict` of strings) into JSON
object entries, as `json.dumps` sees it. -/
def strEntries (m : List (String × String)) : List (String × JsonValue) :=
  m.map (fun kv => (kv.1, JsonValue.str kv.2))

/-- Decoder for a serialized JSON string body: consumes characters up to the
closing quote, undoing `escape_chars`; returns the body and the remaining
input. Fails on a dangling escape or a missing closing quote. -/
def parse_string_body : List Char → Option (List Char × List Char)
  | [] => none
  | c :: rest =>
    if c = '"' then some ([], rest)
    else if c = '\\' then
      match rest with
      | [] => none
      | d :: rest2 =>
        if d = '"' ∨ d = '\\' then
          (parse_string_body rest2).map (fun p => (d :: p.1, p.2))
        else none
    else (parse_string_body rest).map (fun p => (c :: p.1, p.2))

/-- Decoder for the entries of a string-valued JSON object in the canonical
form `json_dumps` emits: `"k": "v"` entries separated by `", "`, terminated
by `}`. Fuel bounds the number of entries. -/
def parse_entries : Nat → List Char → Option (List (String × String) × List Char)
  | 0, _ => none
  | _ + 1, [] => none
  | fuel + 1, c :: rest =>
    if c = '"' then
      match parse_string_body rest with
      | none => none
      | some (key, rest1) =>
        match rest1 with
        | ':' :: ' ' :: '"' :: rest2 =>
          match parse_string_body rest2 with
          | none => none
          | some (val, rest3) =>
            match rest3 with
            | '}' :: rest4 => some ([(String.mk key, String.mk val)], rest4)
            | ',' :: ' ' :: rest4 =>
              match parse_entries fuel rest4 with
              | none => none
              | some (entries, rest5) =>
                  some ((String.mk key, String.mk val) :: entries, rest5)
            | _ => none
        | _ => none
    else none

/-- Model of Python `json.loads` restricted to string-valued objects, the
shape this repository's code serializes: decodes `{"k": "v", ...}` back into
the key-to-value mapping. -/
def parse_strobj (s : String) : Option (List (String × String)) :=
  match s.data with
  | [] => none
  | c :: rest =>
    if c = '{' then
      if rest = ['}'] then some []
      else
        match parse_entries rest.length rest with
        | some (entries, []) => some entries
        | _ => none
    else none

theorem parse_string_body_escape (l : List Char) (rest : List Char) :
    parse_string_body (escape_chars l ++ '"' :: rest) = some (l, rest) := by
  induction l with
  | nil =>
    unfold escape_chars parse_string_body
    simp
  | cons c tl ih =>
    by_cases hq : c = '"'
    · subst hq
      unfold escape_chars
      simp only [if_pos rfl, List.cons_append]
      unfold parse_string_body
      simp [ih]
    · by_cases hb : c = '\\'
      · subst hb
        unfold escape_chars
        simp only [if_neg (show ¬('\\' = '"') by decide), if_pos rfl, List.cons_append]
        unfold parse_string_body
        simp [ih]
      · unfold escape_chars
        simp only [if_neg hq, if_neg hb, List.cons_append]
        unfold parse_string_body
        simp [hq, hb, ih]

theorem string_mk_data (s : String) : String.mk s.data = s := rfl

theorem length_le_json_dumps_entries (m : List (String × String)) :
    m.length ≤ (json_dumps_entries (strEntries m)).length := by
  induction m with
  | nil => simp [strEntries, json_dumps_entries]
  | cons kv tl ih =>
    obtain ⟨k, v⟩ := kv
    cases tl with
    | nil => simp [strEntries, json_dumps_entries, dump_string]
    | cons e t =>
      simp only [strEntries, List.map, List.length_cons] at ih ⊢
      simp only [json_dumps_entries, dump_string, List.length_cons, List.length_append]
      omega

theorem json_dumps_entries_cons_head (k v : String) (t : List (String × String)) :
    ∃ l, json_dumps_entries (strEntries ((k, v) :: t)) = '"' :: l := by
  cases t with
  | nil =>
    refine ⟨escape_chars k.data ++ ['"'] ++ (':' :: ' ' :: json_dumps_chars (.str v)), ?_⟩
    simp [strEntries, json_dumps_entries, dump_string, List.append_assoc]
  | cons e t' =>
    refine ⟨escape_chars k.data ++ ['"'] ++ (':' :: ' ' :: json_dumps_chars (.str v) ++
      ',' :: ' ' :: json_dumps_entries (strEntries (e :: t'))), ?_⟩
    simp [strEntries, json_dumps_entries, dump_string, List.append_assoc]

theorem parse_entries_dump (m : List (String × String)) :
    ∀ (fuel : Nat), m.length ≤ fuel → m ≠ [] →
    ∀ rest, parse_entries fuel (json_dumps_entries (strEntries m) ++ '}' :: rest)
      = some (m, rest) := by
  induction m with
  | nil => intro fuel _ hne; exact absurd rfl hne
  | cons kv tl ih =>
    intro fuel hlen _ rest
    obtain ⟨k, v⟩ := kv
    cases fuel with
    | zero => simp at hlen
    | succ f =>
      cases tl with
      | nil =>
        simp only [strEntries, List.map, json_dumps_entries, json_dumps_chars, dump_string,
          List.cons_append, List.append_assoc, List.singleton_append]
        unfold parse_entries
        simp only [if_pos rfl, if_true, parse_string_body_escape, string_mk_data,
          List.nil_append, List.cons_append, List.append_assoc]
      | cons e t =>
        simp only [strEntries, List.map, json_dumps_entries, json_dumps_chars, dump_string,
          List.cons_append, List.append_assoc, List.singleton_append]
        unfold parse_entries
        have hrec := ih f (by simpa using Nat.le_of_succ_le_succ hlen) (by simp) rest
        simp only [strEntries, List.map] at hrec
        simp only [if_pos rfl, if_true, parse_string_body_escape, string_mk_data,
          List.nil_append, List.cons_append, List.append_assoc, hrec]

theorem parse_strobj_json_dumps (m : List (String × String)) :
    parse_strobj (json_dumps (JsonValue.obj (strEntries m))) = some m := by
  cases m with
  | nil =>
    unfold json_dumps parse_strobj
    simp [json_dumps_chars, json_dumps_entries, strEntries]
  | cons kv t =>
    obtain ⟨k, v⟩ := kv
    obtain ⟨l, hl⟩ := json_dumps_entries_cons_head k v t
    unfold json_dumps parse_strobj
    simp only [json_dumps_chars]
    have hne : json_dumps_entries (strEntries ((k, v) :: t)) ++ ['}'] ≠ ['}'] := by
      rw [hl]; simp
    have hlen : ((k, v) :: t).length ≤
        (json_dumps_entries (strEntries ((k, v) :: t)) ++ ['}']).length := by
      have := length_le_json_dumps_entries ((k, v) :: t)
      simp only [List.length_cons] at this
      simp only [List.length_append, List.length_cons, List.length_nil]
      omega
    have hparse := parse_entries_dump ((k, v) :: t)
      ((json_dumps_entries (strEntries ((k, v) :: t)) ++ ['}']).length) hlen (by simp) []
    simp only [List.append_assoc, List.singleton_append] at hparse ⊢
    simp only [if_pos rfl, if_true, hparse]
    rw [if_neg (by simpa using hne)]

/-! ## Embedding of `src/swarm/clients/gemini_client.py` -/

/-- A Swarm conversation message, a Python dict with keys `role`, `content`,
`function_call`, `tool_name`; `none` in an optional field models the key
being absent from the dict. A present `function_call` is itself a dict with
keys `name` and `arguments` (a string). -/
structure Message where
  role : String
  content : Option String
  function_call : Option (String × String)
  tool_name : Option String
deriving DecidableEq, Repr

/-- A vertexai `Content` object: a role together with the texts of its
`Part.from_text` parts. -/
structure Content where
  role : String
  parts : List String
deriving DecidableEq, Repr

/-- The role remapping of `GeminiClient._convert_message`:
`role_mapping.get(message['role'], message['role'])` with
`role_mapping = {"assistant": "model", "tool": "model"}`. -/
def map_role (role : String) : String :=
  if role = "assistant" then "model"
  else if role = "tool" then "model"
  else role

/-- `GeminiClient._convert_message`. Returns `none` when the Python code
raises: the `tool_name` branch reads `message['content']` with a direct
lookup, a `KeyError` when the key is missing. The final branch uses
`message.get('content', '')` and cannot fail. -/
def convert_message (message : Message) : Option Content :=
  let role := map_role message.role
  match message.function_call with
  | some fc => some ⟨role, [fc.1 ++ "(" ++ fc.2 ++ ")"]⟩
  | none =>
    match message.tool_name with
    | some _ =>
      match message.content with
      | some c => some ⟨role, [c]⟩
      | none => none
    | none => some ⟨role, [message.content.getD ""]⟩

/-- One property of a Swarm tool's parameter schema: `prop.get("type")` and
`prop.get("description", "")` are `.get` lookups, so both keys may be absent. -/
structure SwarmToolProperty where
  type : Option String
  description : Option String
deriving DecidableEq, Repr

/-- `function_details['parameters']`: `properties` and `required` are read
with `.get` and default to `{}` and `[]`. -/
structure SwarmToolParameters where
  properties : Option (List (String × SwarmToolProperty))
  required : Option (List String)
deriving DecidableEq, Repr

/-- `swarm_tool['function']`: `name` and `parameters` are read with direct
lookups (always-present keys in the embedding), `description` with
`.get('description', '')`. -/
structure SwarmToolFunction where
  name : String
  description : Option String
  parameters : SwarmToolParameters
deriving DecidableEq, Repr

/-- A Swarm tool dict: `{'function': {...}}`. -/
structure SwarmTool where
  function : SwarmToolFunction
deriving DecidableEq, Repr

/-- One property in a Gemini `FunctionDeclaration` parameter schema. -/
structure GeminiProperty where
  type : Option String
  description : String
deriving DecidableEq, Repr

/-- A vertexai `FunctionDeclaration` (the parameters dict always carries
`"type": "object"`, kept implicit here). -/
structure FunctionDeclaration where
  name : String
  description : String
  properties : List (String × GeminiProperty)
  required : List String
deriving DecidableEq, Repr

/-- A vertexai `Tool`: a list of function declarations. -/
structure GeminiTool where
  function_declarations : List FunctionDeclaration
deriving DecidableEq, Repr

/-- `GeminiClient._convert_swarm_tool_to_gemini_tool`. -/
def convert_swarm_tool_to_gemini_tool (swarm_tool : SwarmTool) : GeminiTool :=
  let function_details := swarm_tool.function
  let properties := function_details.parameters.properties.getD []
  let required := function_details.parameters.required.getD []
  ⟨[{ name := function_details.name
      description := function_details.description.getD ""
      properties := properties.map (fun kv => (kv.1, ⟨kv.2.type, kv.2.description.getD ""⟩))
      required := required }]⟩

/-- A value in a backend function call's `args` mapping: either a plain
Python value (a string in the verified paths) or a protobuf value exposing a
`string_value` attribute. -/
inductive ArgValue where
  | pyStr : String → ArgValue
  | proto : String → ArgValue
deriving DecidableEq, Repr

/-- `getattr(value, "string_value", value)`: the `string_value` attribute
when the value has one, the value itself otherwise. -/
def ArgValue.string_value_or_self : ArgValue → String
  | .pyStr s => s
  | .proto s => s

/-- A backend (vertexai) function call: a name and an `args` mapping;
`args_is_dict` records whether `args` is a plain Python `dict` (the
`isinstance(function_call.args, dict)` test). -/
structure GeminiFunctionCall where
  name : String
  args_is_dict : Bool
  args : List (String × ArgValue)
deriving DecidableEq, Repr

/-- `GeminiClient._serialize_function_call`: a plain dict is returned as is
(its values are plain strings, on which `string_value_or_self` is the
identity); otherwise every value is replaced by
`getattr(value, "string_value", value)`. -/
def serialize_function_call (function_call : GeminiFunctionCall) : List (String × String) :=
  if function_call.args_is_dict then
    function_call.args.map (fun kv => (kv.1, kv.2.string_value_or_self))
  else
    function_call.args.map (fun kv => (kv.1, kv.2.string_value_or_self))

/-- The `function` DotDict built by `GeminiClient._create_function_structure`:
the call's name, and its serialized args passed through `json.dumps`. -/
structure ToolCallFunction where
  name : String
  arguments : String
deriving DecidableEq, Repr

/-- The tool-call DotDict built by `GeminiClient._create_tool_call`. -/
structure ToolCall where
  id : String
  function : ToolCallFunction
  type : String
deriving DecidableEq, Repr

/-- `GeminiClient._create_function_structure`. -/
def create_function_structure (function_call : GeminiFunctionCall) : ToolCallFunction :=
  { name := function_call.name
    arguments := json_dumps (JsonValue.obj (strEntries (serialize_function_call function_call))) }

/-- `GeminiClient._create_tool_call`; the fresh `str(uuid.uuid4())` is an
explicit parameter. -/
def create_tool_call (new_uuid : String) (function_call : GeminiFunctionCall) : ToolCall :=
  { id := new_uuid
    function := create_function_structure function_call
    type := "function" }

/-- A key of a Python DotDict that may be absent, present with value `None`,
or present with a value. -/
inductive PyField (α : Type) where
  | absent : PyField α
  | pynone : PyField α
  | val : α → PyField α
deriving DecidableEq, Repr

/-- The message DotDict inside the response envelope. `content`, `role` and
`sender` are set in every branch of `Completions.create`; `tool_calls` and
`function_call` vary by branch and are modelled as `PyField`s. -/
structure EnvelopeMessage where
  content : String
  tool_calls : PyField (List ToolCall)
  role : String
  sender : String
  function_call : PyField ToolCallFunction
deriving DecidableEq, Repr

/-- One entry of the envelope's `choices` list. -/
structure Choice where
  message : EnvelopeMessage
deriving DecidableEq, Repr

/-- The response envelope `Completions.create` returns. -/
structure Envelope where
  choices : List Choice
deriving DecidableEq, Repr

/-- A candidate of a backend reply: its `function_calls` list and the text
of its content (`candidate.content.text`). -/
structure Candidate where
  function_calls : List GeminiFunctionCall
  content_text : String
deriving DecidableEq, Repr

/-- A backend reply (`self.model.generate_content(...)`): its candidate list. -/
structure GeminiResponse where
  candidates : List Candidate
deriving DecidableEq, Repr

/-- The fixed blocked-response string of the zero-candidate branch. -/
def blocked_content : String :=
  "The response was blocked by safety filters and no candidates were returned."

/-- The envelope of the zero-candidate (safety-filter) branch of
`Completions.create`. -/
def blocked_envelope : Envelope :=
  ⟨[⟨{ content := blocked_content
       tool_calls := .pynone
       role := "assistant"
       sender := "assistant"
       function_call := .absent }⟩]⟩

/-- The envelope of the function-call branch of `Completions.create`. -/
def function_call_envelope (new_uuid : String) (function_call : GeminiFunctionCall) : Envelope :=
  ⟨[⟨{ content := ""
       tool_calls := .val [create_tool_call new_uuid function_call]
       role := "assistant"
       sender := "assistant"
       function_call := .val
         { name := function_call.name
           arguments := json_dumps (JsonValue.obj (strEntries (serialize_function_call function_call))) } }⟩]⟩

/-- The envelope of the plain-text branch of `Completions.create`. -/
def text_envelope (text : String) : Envelope :=
  ⟨[⟨{ content := text
       tool_calls := .pynone
       role := "assistant"
       sender := "assistant"
       function_call := .absent }⟩]⟩

/-- The reply-to-envelope part of `Completions.create` (everything after the
`generate_content` call): zero candidates → blocked envelope; a first
candidate with function calls → function-call envelope for the first call;
otherwise → plain-text envelope. -/
def translate_response (new_uuid : String) (response : GeminiResponse) : Envelope :=
  match response.candidates with
  | [] => blocked_envelope
  | candidate :: _ =>
    match candidate.function_calls with
    | [] => text_envelope candidate.content_text
    | function_call :: _ => function_call_envelope new_uuid function_call

/-- The system-role filter of `Completions.create`:
`[msg for msg in messages if msg["role"] != "system"]`. -/
def filter_system (messages : List Message) : List Message :=
  messages.filter (fun m => m.role ≠ "system")

/-- The conversation history `Completions.create` sends to the backend:
every non-system message converted by `_convert_message`, in order; `none`
when a conversion raises. -/
def build_conversation (messages : List Message) : Option (List Content) :=
  (filter_system messages).mapM convert_message

/-- `Completions.create`. The backend call `self.model.generate_content` and
the fresh uuid are explicit parameters; `none` models an uncaught exception
raised while converting a message. -/
def create (generate : List Content → List GeminiTool → GeminiResponse)
    (new_uuid : String) (messages : List Message) (tools : List SwarmTool) :
    Option Envelope :=
  let gemini_tools := tools.map convert_swarm_tool_to_gemini_tool
  match build_conversation messages with
  | none => none
  | some conversation_history =>
      some (translate_response new_uuid (generate conversation_history gemini_tools))

/-! ## Embedding of `src/examples/weather_agent_gemini/agents.py` -/

/-- Python truthiness of the `os.getenv('OPENWEATHERMAP_API_KEY')` result:
`None` (variable unset) and the empty string are falsy. -/
def py_truthy : Option String → Bool
  | none => false
  | some s => s ≠ ""

/-- Python subscription `data[key]` on a decoded JSON value: the value under
`key` when `data` is an object carrying it, a `KeyError` when the key is
missing, a `TypeError` on a non-object. -/
def py_index (data : JsonValue) (key : String) : Except String JsonValue :=
  match data with
  | .obj entries =>
    match entries.lookup key with
    | some v => Except.ok v
    | none => Except.error "KeyError"
  | _ => Except.error "TypeError"

/-- The response construction inside `get_weather`'s `try` block:
`json.dumps({"location": data["name"], "temperature": data["main"]["temp"],
"time": time})`; an `.error` is a raised `KeyError`/`TypeError`. -/
def weather_payload (data : JsonValue) (time : String) : Except String String := do
  let name ← py_index data "name"
  let main ← py_index data "main"
  let temp ← py_index main "temp"
  pure (json_dumps (JsonValue.obj
    [("location", name), ("temperature", temp), ("time", JsonValue.str time)]))

/-- Everything that can raise inside `get_weather`'s `try` block: the HTTP
call plus JSON decode (`requests.get(...)` and `response.json()`, modelled by
the `fetch` parameter) chained with the payload construction. -/
def weather_attempt (fetch : Except String JsonValue) (time : String) : Except String String :=
  match fetch with
  | .error e => Except.error e
  | .ok data => weather_payload data time

/-- Whether an attempt raised. -/
def except_failed {α : Type} : Except String α → Bool
  | .error _ => true
  | .ok _ => false

/-- The mock fallback response of `get_weather`:
`json.dumps({"location": location, "temperature": "65", "time": time})`. -/
def mock_weather (location : String) (time : String) : String :=
  json_dumps (JsonValue.obj (strEntries
    [("location", location), ("temperature", "65"), ("time", time)]))

/-- `get_weather`. `api_key` is the `os.getenv` result; `fetch` models the
HTTP call and JSON decode; `time` defaults to `"now"` at Python call sites.
Any exception in the attempt is caught (printed) and the mock response is
returned; with a falsy key the attempt is skipped entirely. -/
def get_weather (api_key : Option String) (fetch : Except String JsonValue)
    (location : String) (time : String) : String :=
  if py_truthy api_key then
    match weather_attempt fetch time with
    | .ok s => s
    | .error _ => mock_weather location time
  else
    mock_weather location time

/-! ## Concrete instances used by witnesses -/

/-- A backend that always returns the same reply, for exercising
`create` on concrete inputs. -/
def const_generate (r : GeminiResponse) : List Content → List GeminiTool → GeminiResponse :=
  fun _ _ => r

/-- A concrete backend function call. -/
def sample_function_call : GeminiFunctionCall :=
  { name := "get_weather"
    args_is_dict := false
    args := [("location", ArgValue.proto "Paris, France")] }

/-- A concrete reply whose only candidate carries one function call. -/
def sample_fc_response : GeminiResponse :=
  ⟨[⟨[sample_function_call], ""⟩]⟩

/-- A concrete reply with zero candidates (safety-filter block). -/
def zero_candidate_response : GeminiResponse :=
  ⟨[]⟩

/-- A concrete plain-text reply. -/
def sample_text_response : GeminiResponse :=
  ⟨[⟨[], "Hello there"⟩]⟩

/-- A backend reply carrying only the given plain text, used to re-inject an
envelope's text into the reply-to-envelope translation. -/
def reply_of_text (s : String) : GeminiResponse :=
  ⟨[⟨[], s⟩]⟩

/-- The content of the first message of an envelope. -/
def first_message_content (e : Envelope) : String :=
  match e.choices with
  | [] => ""
  | choice :: _ => choice.message.content

/-! ## Claim theorems -/

/-- Shape facts shared by every branch of the reply-to-envelope translation:
exactly one choice, whose message has role `"assistant"`, sender
`"assistant"`, and a `tool_calls` key that is never omitted. -/
theorem translate_response_shape (new_uuid : String) (r : GeminiResponse) :
    (translate_response new_uuid r).choices.length = 1 ∧
    ∀ choice ∈ (translate_response new_uuid r).choices,
      choice.message.role = "assistant" ∧ choice.message.sender = "assistant" ∧
      choice.message.tool_calls ≠ PyField.absent := by
  obtain ⟨cs⟩ := r
  cases cs with
  | nil =>
    refine ⟨rfl, ?_⟩
    intro choice hc
    simp only [translate_response, blocked_envelope, List.mem_singleton] at hc
    subst hc
    refine ⟨rfl, rfl, by simp [blocked_envelope]⟩
  | cons candidate rest =>
    cases hfc : candidate.function_calls with
    | nil =>
      refine ⟨by simp [translate_response, hfc, text_envelope], ?_⟩
      intro choice hc
      simp only [translate_response, hfc, text_envelope, List.mem_singleton] at hc
      subst hc
      exact ⟨rfl, rfl, by simp⟩
    | cons fc more =>
      refine ⟨by simp [translate_response, hfc, function_call_envelope], ?_⟩
      intro choice hc
      simp only [translate_response, hfc, function_call_envelope, List.mem_singleton] at hc
      subst hc
      exact ⟨rfl, rfl, by simp⟩

/-- C3: every system-role message is dropped before translation — the
request sent to the backend is built from exactly the non-system messages,
kept in their original order (`filter_system messages` is an order-preserving
sublist containing precisely the non-system messages, and the conversation
history is its elementwise conversion). -/
theorem create_drops_system_messages (messages : List Message) :
    List.Sublist (filter_system messages) messages ∧
    (∀ m : Message, m ∈ filter_system messages ↔ (m ∈ messages ∧ m.role ≠ "system")) ∧
    build_conversation messages = (filter_system messages).mapM convert_message := by
  refine ⟨List.filter_sublist _, ?_, rfl⟩
  intro m
  simp [filter_system, List.mem_filter]

/-- C4: the role of a translated `Content` object follows the fixed mapping
table: `"assistant"` and `"tool"` map to `"model"`, every other role maps to
itself; every successful `_convert_message` assigns exactly the mapped role. -/
theorem convert_message_role_mapping :
    map_role "assistant" = "model" ∧ map_role "tool" = "model" ∧
    (∀ r : String, r ≠ "assistant" → r ≠ "tool" → map_role r = r) ∧
    (∀ (m : Message) (c : Content), convert_message m = some c → c.role = map_role m.role) := by
  refine ⟨rfl, rfl, ?_, ?_⟩
  · intro r h1 h2
    simp [map_role, h1, h2]
  · intro m c h
    unfold convert_message at h
    cases hfc : m.function_call with
    | some fc => rw [hfc] at h; injection h with h; subst h; rfl
    | none =>
      rw [hfc] at h
      cases htn : m.tool_name with
      | some t =>
        rw [htn] at h
        cases hct : m.content with
        | some s => rw [hct] at h; injection h with h; subst h; rfl
        | none => rw [hct] at h; cases h
      | none => rw [htn] at h; injection h with h; subst h; rfl

/-- C4 witness: the mapping evaluated at concrete inputs. -/
theorem convert_message_role_mapping_witness :
    map_role "user" = "user" ∧ ("model" : String) = map_role "tool" :=
  ⟨convert_message_role_mapping.2.2.1 "user" (by decide) (by decide),
   convert_message_role_mapping.2.2.2 ⟨"tool", some "42", none, some "get_weather"⟩
     ⟨"model", ["42"]⟩ (by decide)⟩

/-- C10: a message with neither `function_call` nor `tool_name` converts
successfully even without a `content` key, to a `Content` whose single text
part is the empty string; a message with a `tool_name` key but no `content`
key hits the direct `message['content']` lookup and fails. -/
theorem convert_message_missing_content :
    (∀ m : Message, m.function_call = none → m.tool_name = none → m.content = none →
      convert_message m = some ⟨map_role m.role, [""]⟩) ∧
    (∀ m : Message, m.function_call = none → m.tool_name.isSome = true → m.content = none →
      convert_message m = none) := by
  constructor
  · intro m h1 h2 h3
    simp [convert_message, h1, h2, h3]
  · intro m h1 h2 h3
    obtain ⟨t, ht⟩ := Option.isSome_iff_exists.mp h2
    simp [convert_message, h1, ht, h3]

/-- C10 witness: both behaviours at concrete messages. -/
theorem convert_message_missing_content_witness :
    convert_message ⟨"user", none, none, none⟩ = some ⟨map_role "user", [""]⟩ ∧
    convert_message ⟨"tool", none, none, some "get_weather"⟩ = none :=
  ⟨convert_message_missing_content.1 ⟨"user", none, none, none⟩ rfl rfl rfl,
   convert_message_missing_content.2 ⟨"tool", none, none, some "get_weather"⟩ rfl rfl rfl⟩

/-- C6: with no configured credential (`OPENWEATHERMAP_API_KEY` unset, i.e.
`os.getenv` returns `None`), `get_weather` returns the mock JSON string for
any location, time and external-service behaviour; decoding it yields a
mapping whose `temperature` is the fixed mock value `"65"` and whose
`location` is the input location. -/
theorem get_weather_no_credential
    (fetch : Except String JsonValue) (location time : String) :
    get_weather none fetch location time = mock_weather location time ∧
    parse_strobj (get_weather none fetch location time) =
      some [("location", location), ("temperature", "65"), ("time", time)] ∧
    (parse_strobj (get_weather none fetch location time)).map
      (fun entries => entries.lookup "temperature") = some (some "65") ∧
    (parse_strobj (get_weather none fetch location time)).map
      (fun entries => entries.lookup "location") = some (some location) := by
  have hmock : get_weather none fetch location time = mock_weather location time := by
    simp [get_weather, py_truthy]
  have hparse : parse_strobj (get_weather none fetch location time) =
      some [("location", location), ("temperature", "65"), ("time", time)] := by
    rw [hmock]
    exact parse_strobj_json_dumps [("location", location), ("temperature", "65"), ("time", time)]
  refine ⟨hmock, hparse, ?_, ?_⟩
  · rw [hparse]
    simp [List.lookup]
  · rw [hparse]
    simp [List.lookup]

/-- C7: whenever the external weather lookup cannot produce a response — a
falsy credential, an exception raised by the HTTP call or JSON decode, or a
malformed payload failing the `data["name"]`/`data["main"]["temp"]` lookups —
`get_weather` returns the mock JSON response (it is a total function: the
`except Exception` clause only prints, it never re-raises). -/
theorem get_weather_failure_fallback
    (api_key : Option String) (fetch : Except String JsonValue) (location time : String)
    (h : py_truthy api_key = false ∨ except_failed (weather_attempt fetch time) = true) :
    get_weather api_key fetch location time = mock_weather location time := by
  unfold get_weather
  by_cases ht : py_truthy api_key
  · rcases h with h | h
    · rw [ht] at h; cases h
    · cases ha : weather_attempt fetch time with
      | error e => simp [ht, ha]
      | ok s => rw [ha] at h; simp [except_failed] at h
  · simp [ht]

/-- C1: for every backend reply whose first candidate carries at least one
function call, the returned envelope holds exactly one tool call; its
`function.arguments` string decodes to exactly the key-to-value mapping the
backend provided, its `id` is the synthesized uuid, and it is mirrored by a
`function_call` field with the same name and arguments string. -/
theorem create_function_call_result
    (generate : List Content → List GeminiTool → GeminiResponse) (new_uuid : String)
    (messages : List Message) (tools : List SwarmTool)
    (conversation : List Content) (candidate : Candidate) (rest : List Candidate)
    (fc : GeminiFunctionCall) (more : List GeminiFunctionCall)
    (hconv : build_conversation messages = some conversation)
    (hresp : generate conversation (tools.map convert_swarm_tool_to_gemini_tool)
      = ⟨candidate :: rest⟩)
    (hfc : candidate.function_calls = fc :: more) :
    ∃ tc : ToolCall,
      create generate new_uuid messages tools = some (function_call_envelope new_uuid fc) ∧
      (function_call_envelope new_uuid fc).choices =
        [⟨{ content := ""
            tool_calls := PyField.val [tc]
            role := "assistant"
            sender := "assistant"
            function_call := PyField.val tc.function }⟩] ∧
      parse_strobj tc.function.arguments = some (serialize_function_call fc) ∧
      tc.id = new_uuid ∧ tc.function.name = fc.name ∧ tc.type = "function" := by
  refine ⟨create_tool_call new_uuid fc, ?_, rfl, ?_, rfl, rfl, rfl⟩
  · simp only [create, hconv]
    rw [hresp]
    simp [translate_response, hfc]
  · exact parse_strobj_json_dumps (serialize_function_call fc)

/-- C1 witness: the theorem evaluated on a concrete one-function-call reply. -/
theorem create_function_call_result_witness :
    ∃ tc : ToolCall,
      create (const_generate sample_fc_response) "id-0001" [] [] =
        some (function_call_envelope "id-0001" sample_function_call) ∧
      (function_call_envelope "id-0001" sample_function_call).choices =
        [⟨{ content := ""
            tool_calls := PyField.val [tc]
            role := "assistant"
            sender := "assistant"
            function_call := PyField.val tc.function }⟩] ∧
      parse_strobj tc.function.arguments = some (serialize_function_call sample_function_call) ∧
      tc.id = "id-0001" ∧ tc.function.name = sample_function_call.name ∧
      tc.type = "function" :=
  create_function_call_result (const_generate sample_fc_response) "id-0001" [] [] []
    ⟨[sample_function_call], ""⟩ [] sample_function_call [] rfl rfl rfl

/-- C2 counterexample: on a concrete zero-candidate reply the envelope's
message does carry the `tool_calls` key — set to `None` — so `tool_calls` is
not absent as the claim states. -/
theorem create_zero_candidates_tool_calls_present :
    create (const_generate zero_candidate_response) "id-0002" [] [] = some blocked_envelope ∧
    (∀ choice ∈ blocked_envelope.choices, choice.message.tool_calls = PyField.pynone) ∧
    (PyField.pynone : PyField (List ToolCall)) ≠ PyField.absent := by
  refine ⟨rfl, ?_, by decide⟩
  intro choice hc
  simp only [blocked_envelope, List.mem_singleton] at hc
  subst hc
  rfl

/-- C2 amended: for every backend reply with zero candidates,
`Completions.create` returns normally (no exception), with message content
the fixed blocked-response string, and with `tool_calls` present and set to
`None` (no tool calls) rather than the key being absent. -/
theorem create_zero_candidates_blocked
    (generate : List Content → List GeminiTool → GeminiResponse) (new_uuid : String)
    (messages : List Message) (tools : List SwarmTool) (conversation : List Content)
    (hconv : build_conversation messages = some conversation)
    (hresp : generate conversation (tools.map convert_swarm_tool_to_gemini_tool) = ⟨[]⟩) :
    create generate new_uuid messages tools = some blocked_envelope ∧
    ∀ choice ∈ blocked_envelope.choices,
      choice.message.content = blocked_content ∧
      choice.message.tool_calls = PyField.pynone := by
  constructor
  · simp only [create, hconv]
    rw [hresp]
    rfl
  · intro choice hc
    simp only [blocked_envelope, List.mem_singleton] at hc
    subst hc
    exact ⟨rfl, rfl⟩

/-- C2 amended witness: the theorem evaluated on a concrete blocked reply. -/
theorem create_zero_candidates_blocked_witness :
    create (const_generate zero_candidate_response) "id-0003"
        [⟨"user", some "hi", none, none⟩] [] = some blocked_envelope ∧
    ∀ choice ∈ blocked_envelope.choices,
      choice.message.content = blocked_content ∧
      choice.message.tool_calls = PyField.pynone :=
  create_zero_candidates_blocked (const_generate zero_candidate_response) "id-0003"
    [⟨"user", some "hi", none, none⟩] [] [⟨"user", ["hi"]⟩] (by decide) rfl

/-- C5: every envelope `Completions.create` returns — whatever the backend
reply — has a choices list of length exactly one, whose message carries the
expected fields, with role and sender set and the `tool_calls` key never
omitted. -/
theorem create_envelope_single_choice
    (generate : List Content → List GeminiTool → GeminiResponse) (new_uuid : String)
    (messages : List Message) (tools : List SwarmTool) (env : Envelope)
    (h : create generate new_uuid messages tools = some env) :
    env.choices.length = 1 ∧
    ∀ choice ∈ env.choices,
      choice.message.role = "assistant" ∧ choice.message.sender = "assistant" ∧
      choice.message.tool_calls ≠ PyField.absent := by
  cases hconv : build_conversation messages with
  | none =>
    simp only [create, hconv] at h
    cases h
  | some conversation =>
    simp only [create, hconv, Option.some.injEq] at h
    subst h
    exact translate_response_shape new_uuid _

/-- C5 witness: the theorem evaluated on a concrete plain-text reply. -/
theorem create_envelope_single_choice_witness :
    (text_envelope "Hello there").choices.length = 1 ∧
    ∀ choice ∈ (text_envelope "Hello there").choices,
      choice.message.role = "assistant" ∧ choice.message.sender = "assistant" ∧
      choice.message.tool_calls ≠ PyField.absent :=
  create_envelope_single_choice (const_generate sample_text_response) "id-0004" [] []
    (text_envelope "Hello there") rfl

/-- C8: the reply-to-envelope translation is idempotent on plain-text
replies: re-translating a reply that carries the translated envelope's text
(the only data a plain-text envelope holds) yields the identical envelope,
for any fresh uuid, which the plain-text branch ignores. -/
theorem translate_response_idempotent
    (u1 u2 : String) (r : GeminiResponse) (candidate : Candidate) (rest : List Candidate)
    (hc : r.candidates = candidate :: rest) (hfc : candidate.function_calls = []) :
    translate_response u2 (reply_of_text (first_message_content (translate_response u1 r)))
      = translate_response u1 r := by
  have hrhs : translate_response u1 r = text_envelope candidate.content_text := by
    unfold translate_response
    rw [hc]
    simp only [hfc]
  rw [hrhs]
  rfl

/-- C8 witness: the theorem evaluated on a concrete plain-text reply. -/
theorem translate_response_idempotent_witness :
    translate_response "id-0005"
        (reply_of_text (first_message_content (translate_response "id-0006" sample_text_response)))
      = translate_response "id-0006" sample_text_response :=
  translate_response_idempotent "id-0006" "id-0005" sample_text_response
    ⟨[], "Hello there"⟩ [] rfl rfl

/-- C9: every message `Completions.create` returns has role `"assistant"`
and sender `"assistant"`, and its `tool_calls` key is always present — set
to `None` in the blocked-response and plain-text branches rather than
omitted. -/
theorem create_message_constant_fields
    (generate : List Content → List GeminiTool → GeminiResponse) (new_uuid : String)
    (messages : List Message) (tools : List SwarmTool) (conversation : List Content)
    (env : Envelope)
    (hconv : build_conversation messages = some conversation)
    (h : create generate new_uuid messages tools = some env) :
    (∀ choice ∈ env.choices,
      choice.message.role = "assistant" ∧ choice.message.sender = "assistant" ∧
      choice.message.tool_calls ≠ PyField.absent) ∧
    (((generate conversation (tools.map convert_swarm_tool_to_gemini_tool)).candidates = [] ∨
      (∃ candidate rest,
        (generate conversation (tools.map convert_swarm_tool_to_gemini_tool)).candidates
          = candidate :: rest ∧ candidate.function_calls = [])) →
      ∀ choice ∈ env.choices, choice.message.tool_calls = PyField.pynone) := by
  simp only [create, hconv, Option.some.injEq] at h
  subst h
  refine ⟨(translate_response_shape new_uuid _).2, ?_⟩
  intro hbranch choice hc
  rcases hbranch with hzero | ⟨candidate, rest, hcand, hfc⟩
  · unfold translate_response at hc
    rw [hzero] at hc
    simp only [blocked_envelope, List.mem_singleton] at hc
    subst hc
    rfl
  · unfold translate_response at hc
    rw [hcand] at hc
    simp only [hfc, text_envelope, List.mem_singleton] at hc
    subst hc
    rfl

/-- C9 witness: the theorem evaluated on a concrete blocked reply. -/
theorem create_message_constant_fields_witness :
    (∀ choice ∈ blocked_envelope.choices,
      choice.message.role = "assistant" ∧ choice.message.sender = "assistant" ∧
      choice.message.tool_calls ≠ PyField.absent) ∧
    ((zero_candidate_response.candidates = [] ∨
      (∃ candidate rest, zero_candidate_response.candidates = candidate :: rest ∧
        candidate.function_calls = [])) →
      ∀ choice ∈ blocked_envelope.choices, choice.message.tool_calls = PyField.pynone) :=
  create_message_constant_fields (const_generate zero_candidate_response) "id-0007"
    [] [] [] blocked_envelope rfl rfl

/-- C7 witness: a raised network error with a truthy key falls back to the
mock response. -/
theorem get_weather_failure_fallback_witness :
    (py_truthy (some "key123") = false ∨
      except_failed (weather_attempt (Except.error "ConnectionError") "now") = true) ∧
    get_weather (some "key123") (Except.error "ConnectionError") "Paris" "now" =
      mock_weather "Paris" "now" :=
  ⟨Or.inr rfl,
   get_weather_failure_fallback (some "key123") (Except.error "ConnectionError") "Paris" "now"
     (Or.inr rfl)⟩

end SwarmGemini
